import Mathlib

/-!
Shallow embedding of unblob's report module (src/unblob/report.py): the
report data model, exception capture, streaming hashing, the filesystem
stat snapshot, the entropy report and the serialization contract, together
with proofs of the specified properties.

Python strings are modelled as Lean `String`, bytes as `List UInt8`,
Python `int` as `Int` (sizes and modes, which are non-negative, as `Nat`),
Python `float` fields as `Rat`, and raising as returning `Except`.

The file is organized as all definitions first, then all theorems.
-/

namespace Unblob

/-- Values of Python's two-member Severity enum (report.py lines 20-24). -/
inductive Severity where
  | ERROR
  | WARNING
  deriving DecidableEq, Repr

/-- A raised Python exception as a result value: ValueError from input
validation, OSError from filesystem calls. -/
inductive PyErr where
  | valueError (msg : String)
  | osError (msg : String)
  deriving DecidableEq, Repr

/-- Modelled from the spec: a live Python exception object as taken by the
exception capture operation (the exception machinery is the Python standard
library, not part of src/): its type name, its message, and the already
formatted stack-frame lines of its traceback attribute (empty when the
exception has no traceback). -/
structure Exc where
  typeName : String
  message : String
  tbLines : List String
  deriving DecidableEq, Repr

/-- Modelled from the spec: Python's traceback.format_exception as called by
_convert_exception_to_str. It yields the traceback header plus the frame
lines (when a traceback is present), followed by the final line made of the
exception's type name and, when non-empty, its message; the caller joins the
returned list of strings. -/
def format_exception (e : Exc) : List String :=
  (if e.tbLines.isEmpty then [] else "Traceback (most recent call last):\n" :: e.tbLines)
    ++ [if e.message = "" then e.typeName ++ "\n" else e.typeName ++ ": " ++ e.message ++ "\n"]

/-- Python str.join with the empty separator, as used on the
format_exception output. -/
def strJoin : List String → String
  | [] => ""
  | s :: rest => s ++ strJoin rest

/-- A Python value as dispatched by the isinstance checks of
_convert_exception_to_str: a str, an Exception instance, or anything else
(carrying only a description of the foreign object). -/
inductive PyObj where
  | str (s : String)
  | exc (e : Exc)
  | other (desc : String)
  deriving DecidableEq, Repr

/-- Embedding of _convert_exception_to_str (report.py lines 47-53): a str is
returned unchanged, an Exception is rendered through
traceback.format_exception and joined, and any other object raises
ValueError. -/
def _convert_exception_to_str : PyObj → Except PyErr String
  | .str s => .ok s
  | .exc e => .ok (strJoin (format_exception e))
  | .other _ => .error (.valueError "Invalid exception object")

/-- Substring containment for strings, stated by explicit decomposition. -/
def containsSubstring (t sub : String) : Prop :=
  ∃ pre post, t = pre ++ (sub ++ post)

/-- UTF-8 bytes of a string, for Python bytes literals such as b"bad header". -/
def strBytes (s : String) : List UInt8 :=
  s.toUTF8.toList

/-- Embedding of ErrorReport (report.py lines 27-29): every error variant is
a record with a Severity plus variant-specific fields; attrs flattens
inheritance, so each variant below is a standalone structure carrying the
severity default declared at its own definition site. -/
structure ErrorReport where
  severity : Severity
  deriving DecidableEq, Repr

/-- Embedding of UnknownError (report.py lines 56-69): severity defaults to
ERROR; the exception field holds the text produced by the converter. -/
structure UnknownError where
  severity : Severity := Severity.ERROR
  exception : String
  deriving DecidableEq, Repr

/-- Construction of an UnknownError: attrs applies the converter
_convert_exception_to_str to the exception argument at construct time,
which can raise ValueError. -/
def mkUnknownError (exception : PyObj) : Except PyErr UnknownError :=
  (_convert_exception_to_str exception).map fun s => { exception := s }

/-- Embedding of CalculateChunkExceptionReport (report.py lines 72-78),
specializing UnknownError with a start offset and a handler name. -/
structure CalculateChunkExceptionReport where
  severity : Severity := Severity.ERROR
  exception : String
  start_offset : Int
  handler : String
  deriving DecidableEq, Repr

/-- Construction of a CalculateChunkExceptionReport through the inherited
exception converter. -/
def mkCalculateChunkExceptionReport (exception : PyObj) (start_offset : Int)
    (handler : String) : Except PyErr CalculateChunkExceptionReport :=
  (_convert_exception_to_str exception).map fun s =>
    { exception := s, start_offset := start_offset, handler := handler }

/-- Embedding of CalculateMultiFileExceptionReport (report.py lines 81-87),
specializing UnknownError with a path and a handler name. -/
structure CalculateMultiFileExceptionReport where
  severity : Severity := Severity.ERROR
  exception : String
  path : String
  handler : String
  deriving DecidableEq, Repr

/-- Construction of a CalculateMultiFileExceptionReport through the
inherited exception converter. -/
def mkCalculateMultiFileExceptionReport (exception : PyObj) (path : String)
    (handler : String) : Except PyErr CalculateMultiFileExceptionReport :=
  (_convert_exception_to_str exception).map fun s =>
    { exception := s, path := path, handler := handler }

/-- Embedding of ExtractCommandFailedReport (report.py lines 90-98):
severity defaults to WARNING; stdout and stderr are captured verbatim as
bytes. -/
structure ExtractCommandFailedReport where
  severity : Severity := Severity.WARNING
  command : String
  stdout : List UInt8
  stderr : List UInt8
  exit_code : Int
  deriving DecidableEq, Repr

/-- Embedding of ExtractDirectoryExistsReport (report.py lines 101-104). -/
structure ExtractDirectoryExistsReport where
  severity : Severity := Severity.ERROR
  path : String
  deriving DecidableEq, Repr

/-- Embedding of ExtractorDependencyNotFoundReport (report.py lines
107-112). -/
structure ExtractorDependencyNotFoundReport where
  severity : Severity := Severity.ERROR
  dependencies : List String
  deriving DecidableEq, Repr

/-- Embedding of ExtractorTimedOut (report.py lines 115-121); the float
timeout is modelled as a rational. -/
structure ExtractorTimedOut where
  severity : Severity := Severity.ERROR
  cmd : String
  timeout : Rat
  deriving DecidableEq, Repr

/-- Embedding of MaliciousSymlinkRemoved (report.py lines 124-130):
severity defaults to WARNING. -/
structure MaliciousSymlinkRemoved where
  severity : Severity := Severity.WARNING
  link : String
  target : String
  deriving DecidableEq, Repr

/-- Embedding of MultiFileCollisionReport (report.py lines 133-139); the
Python set of paths is modelled as a list of its elements. -/
structure MultiFileCollisionReport where
  severity : Severity := Severity.ERROR
  paths : List String
  handler : String
  deriving DecidableEq, Repr

/-- The attrs class decorator arguments as written in report.py. -/
structure AttrsDecorator where
  kw_only : Bool
  frozen : Bool
  deriving DecidableEq, Repr

/-- One entry per attrs-decorated class of report.py, in source order, with
the decorator arguments used at its definition site: every class is
declared with kw_only=True and frozen=True. -/
def reportClassDecorators : List (String × AttrsDecorator) :=
  [("Report", ⟨true, true⟩),
   ("ErrorReport", ⟨true, true⟩),
   ("UnknownError", ⟨true, true⟩),
   ("CalculateChunkExceptionReport", ⟨true, true⟩),
   ("CalculateMultiFileExceptionReport", ⟨true, true⟩),
   ("ExtractCommandFailedReport", ⟨true, true⟩),
   ("ExtractDirectoryExistsReport", ⟨true, true⟩),
   ("ExtractorDependencyNotFoundReport", ⟨true, true⟩),
   ("ExtractorTimedOut", ⟨true, true⟩),
   ("MaliciousSymlinkRemoved", ⟨true, true⟩),
   ("MultiFileCollisionReport", ⟨true, true⟩),
   ("StatReport", ⟨true, true⟩),
   ("HashReport", ⟨true, true⟩),
   ("FileMagicReport", ⟨true, true⟩),
   ("EntropyReport", ⟨true, true⟩),
   ("ChunkReport", ⟨true, true⟩),
   ("UnknownChunkReport", ⟨true, true⟩),
   ("MultiFileReport", ⟨true, true⟩),
   ("ExtractionProblem", ⟨true, true⟩)]

/-- The effect of assigning to an attribute of a constructed instance. -/
inductive SetattrOutcome where
  | mutates
  | raisesFrozenInstanceError
  deriving DecidableEq, Repr

/-- Modelled from the spec: the attrs library (outside src/) makes every
instance of a class declared with frozen=True reject attribute assignment
by raising FrozenInstanceError, leaving the record unchanged; only a
non-frozen class would mutate the field. -/
def attrsSetattr (d : AttrsDecorator) : SetattrOutcome :=
  if d.frozen then .raisesFrozenInstanceError else .mutates

/-- File-type mask of Python's stat module (POSIX S_IFMT). -/
def S_IFMT : Nat := 0xF000

/-- Directory file-type constant (POSIX S_IFDIR). -/
def S_IFDIR : Nat := 0x4000

/-- Regular-file file-type constant (POSIX S_IFREG). -/
def S_IFREG : Nat := 0x8000

/-- Symlink file-type constant (POSIX S_IFLNK). -/
def S_IFLNK : Nat := 0xA000

/-- stat.S_ISDIR applied to an lstat mode. -/
def S_ISDIR (mode : Nat) : Bool :=
  mode &&& S_IFMT == S_IFDIR

/-- stat.S_ISREG applied to an lstat mode. -/
def S_ISREG (mode : Nat) : Bool :=
  mode &&& S_IFMT == S_IFREG

/-- stat.S_ISLNK applied to an lstat mode. -/
def S_ISLNK (mode : Nat) : Bool :=
  mode &&& S_IFMT == S_IFLNK

/-- The fields of an os.lstat result read by StatReport.from_path. -/
structure LstatResult where
  st_mode : Nat
  st_size : Nat
  deriving DecidableEq, Repr

/-- Modelled from the spec: an existing filesystem path at snapshot time, as
seen through the two system calls from_path performs — the lstat result for
the path itself (symlinks not followed) and the outcome of the single
os.readlink call, which raises OSError when the path is not a symlink or
its target cannot be read. -/
structure PathState where
  lstat : LstatResult
  readlinkResult : Except PyErr String
  deriving Repr

/-- Embedding of StatReport (report.py lines 142-149). -/
structure StatReport where
  path : String
  size : Nat
  is_dir : Bool
  is_file : Bool
  is_link : Bool
  link_target : Option String
  deriving DecidableEq, Repr

/-- Embedding of StatReport.from_path (report.py lines 151-167): one lstat,
one best-effort readlink whose OSError is turned into an absent target, and
the record assembled from the mode bits of the single lstat. -/
def StatReport.from_path (path : String) (ps : PathState) : StatReport :=
  let st := ps.lstat
  let mode := st.st_mode
  let link_target : Option String :=
    match ps.readlinkResult with
    | .ok t => some t
    | .error _ => none
  { path := path, size := st.st_size, is_dir := S_ISDIR mode,
    is_file := S_ISREG mode, is_link := S_ISLNK mode, link_target := link_target }

/-- A concrete regular file (mode 0o100644, size 1234) whose readlink call
fails with EINVAL, as POSIX readlink does on a non-symlink. -/
def regFilePathState : PathState :=
  { lstat := { st_mode := 0x81A4, st_size := 1234 },
    readlinkResult := .error (.osError "EINVAL") }

/-- A concrete symlink (mode 0o120777) pointing at /etc/passwd. -/
def symlinkPathState : PathState :=
  { lstat := { st_mode := 0xA1FF, st_size := 11 },
    readlinkResult := .ok "/etc/passwd" }

/-- Embedding of HashReport (report.py lines 170-174). -/
structure HashReport where
  md5 : String
  sha1 : String
  sha256 : String
  deriving DecidableEq, Repr

/-- Modelled from the spec: a hashlib digest object. Its documented
contract is that update(a) followed by update(b) is equivalent to
update(a+b), so the digest state is determined by the byte sequence
absorbed so far. -/
structure Hasher where
  absorbed : List UInt8
  deriving DecidableEq, Repr

/-- hashlib update: absorb one chunk of bytes. -/
def Hasher.update (h : Hasher) (chunk : List UInt8) : Hasher :=
  ⟨h.absorbed ++ chunk⟩

/-- hashlib hexdigest, parameterized by the algorithm's digest function
from full byte content to lowercase hex text (md5, sha1 and sha256 are
standard-library primitives, outside src/). -/
def Hasher.hexdigest (alg : List UInt8 → String) (h : Hasher) : String :=
  alg h.absorbed

/-- The chunks produced by the read loop of HashReport.from_path:
f.read(chunk_size) returns the next at-most-chunk_size bytes, and the loop
stops at the first empty read. -/
def readChunks (chunk_size : Nat) (content : List UInt8) : List (List UInt8) :=
  if h : content.take chunk_size = [] then []
  else content.take chunk_size :: readChunks chunk_size (content.drop chunk_size)
termination_by content.length
decreasing_by
  rw [List.take_eq_nil_iff] at h
  push_neg at h
  obtain ⟨h1, h2⟩ := h
  have hpos : 0 < content.length := List.length_pos.mpr h2
  rw [List.length_drop]
  omega

/-- Embedding of HashReport.from_path (report.py lines 176-193),
parameterized by the three digest primitives and generalized over the block
size: one read loop feeds every chunk to all three digests before
advancing, then the three hexdigests assemble the record. -/
def hashReport_from_path_blocks (md5alg sha1alg sha256alg : List UInt8 → String)
    (chunk_size : Nat) (content : List UInt8) : HashReport :=
  let finals := (readChunks chunk_size content).foldl
    (fun (st : Hasher × Hasher × Hasher) chunk =>
      (st.1.update chunk, st.2.1.update chunk, st.2.2.update chunk))
    (⟨[]⟩, ⟨[]⟩, ⟨[]⟩)
  { md5 := finals.1.hexdigest md5alg,
    sha1 := finals.2.1.hexdigest sha1alg,
    sha256 := finals.2.2.hexdigest sha256alg }

/-- HashReport.from_path with the source's fixed 64 KiB chunk size. -/
def HashReport.from_path (md5alg sha1alg sha256alg : List UInt8 → String)
    (content : List UInt8) : HashReport :=
  hashReport_from_path_blocks md5alg sha1alg sha256alg (1024 * 64) content

/-- A toy digest primitive used to instantiate the parameterized hashing
theorem on a concrete input. -/
def byteSumHex (content : List UInt8) : String :=
  toString (content.foldl (fun a b => a + b.toNat) 0)

/-- Embedding of EntropyReport (report.py lines 202-206); the float
percentages and mean are modelled as rationals and the Python int
block_size as an integer. -/
structure EntropyReport where
  percentages : List Rat
  block_size : Int
  mean : Rat
  deriving DecidableEq, Repr

/-- Python max on a list: the left fold of binary max over the elements,
None standing for the ValueError Python raises on an empty list. -/
def pymax : List Rat → Option Rat
  | [] => none
  | x :: xs => some (xs.foldl max x)

/-- Python min on a list, as pymax. -/
def pymin : List Rat → Option Rat
  | [] => none
  | x :: xs => some (xs.foldl min x)

/-- Embedding of the derived property EntropyReport.highest (report.py
lines 208-210): Python max over the percentages. -/
def EntropyReport.highest (r : EntropyReport) : Option Rat :=
  pymax r.percentages

/-- Embedding of the derived property EntropyReport.lowest (report.py
lines 212-214): Python min over the percentages. -/
def EntropyReport.lowest (r : EntropyReport) : Option Rat :=
  pymin r.percentages

/-- Modelled from the spec: the entropy profiler (outside src/) that
produces every EntropyReport. It divides the input into consecutive
non-overlapping blocks of block_size bytes (the last block may be shorter),
applies a per-block normalized entropy measure on the 0-100 scale, and
records the block percentages in order, the block size and their mean; a
non-positive block size is an input-validation error. -/
def profile_entropy (measure : List UInt8 → Rat) (block_size : Int)
    (data : List UInt8) : Except PyErr EntropyReport :=
  if block_size ≤ 0 then .error (.valueError "block_size must be positive")
  else
    let ps := (readChunks block_size.toNat data).map measure
    .ok { percentages := ps, block_size := block_size,
          mean := ps.foldl (fun a b => a + b) 0 / (ps.length : Rat) }

/-- A constant per-block measure on the 0-100 scale, used to instantiate
the profiler theorem on a concrete input. -/
def constMeasure : List UInt8 → Rat :=
  fun _ => 50

mutual
/-- Modelled from the spec: the universe of runtime values held by report
fields — scalars, paths, bytes, severities, nested report instances, and
lists, sets and dicts of such values — over which attr.asdict (outside
src/) recurses. -/
inductive AttrVal where
  | vstr (s : String)
  | vint (n : Int)
  | vrat (q : Rat)
  | vbool (b : Bool)
  | vbytes (bs : List UInt8)
  | vnone
  | vseverity (s : Severity)
  | vreport (r : ReportVal)
  | vlist (xs : ValList)
  | vset (xs : ValList)
  | vdict (entries : FieldList)

/-- A report instance: its named fields in declaration order. -/
inductive ReportVal where
  | mk (fields : FieldList)

/-- A list of report-field values. -/
inductive ValList where
  | nil
  | cons (hd : AttrVal) (tl : ValList)

/-- Field-name/value pairs of a report instance or dict. -/
inductive FieldList where
  | nil
  | cons (key : String) (val : AttrVal) (tl : FieldList)
end

mutual
/-- Modelled from the spec: the value recursion of attr.asdict — a nested
attrs instance becomes the plain dict of its converted fields, lists, sets
and dicts are converted elementwise, and scalars pass through. -/
def asdictVal : AttrVal → AttrVal
  | .vreport r => .vdict (asdictReport r)
  | .vlist xs => .vlist (asdictList xs)
  | .vset xs => .vset (asdictList xs)
  | .vdict es => .vdict (asdictFields es)
  | v => v

/-- Conversion of one report instance to its field mapping. -/
def asdictReport : ReportVal → FieldList
  | .mk fields => asdictFields fields

/-- Elementwise conversion of a value list. -/
def asdictList : ValList → ValList
  | .nil => .nil
  | .cons x xs => .cons (asdictVal x) (asdictList xs)

/-- Entrywise conversion of a field mapping. -/
def asdictFields : FieldList → FieldList
  | .nil => .nil
  | .cons k v tl => .cons k (asdictVal v) (asdictFields tl)
end

/-- Embedding of Report.asdict (report.py lines 16-17): attr.asdict applied
to the receiver, producing the plain mapping of its fields. -/
def Report.asdict (r : ReportVal) : AttrVal :=
  .vdict (asdictReport r)

mutual
/-- Whether a value still holds a report instance anywhere — an
unexpandable opaque handle from the serialization contract's viewpoint. -/
def containsReportVal : AttrVal → Bool
  | .vreport _ => true
  | .vlist xs => containsReportList xs
  | .vset xs => containsReportList xs
  | .vdict es => containsReportFields es
  | _ => false

/-- Whether any element of a value list holds a report instance. -/
def containsReportList : ValList → Bool
  | .nil => false
  | .cons x xs => containsReportVal x || containsReportList xs

/-- Whether any entry of a field mapping holds a report instance. -/
def containsReportFields : FieldList → Bool
  | .nil => false
  | .cons _ v tl => containsReportVal v || containsReportFields tl
end

/-- Embedding of FileMagicReport (report.py lines 196-199). -/
structure FileMagicReport where
  magic : String
  mime_type : String
  deriving DecidableEq, Repr

/-- Embedding of ChunkReport (report.py lines 217-226); the nested
extraction reports are values of the report universe. -/
structure ChunkReport where
  id : String
  handler_name : String
  start_offset : Int
  end_offset : Int
  size : Int
  is_encrypted : Bool
  extraction_reports : List AttrVal

/-- Embedding of UnknownChunkReport (report.py lines 229-236). -/
structure UnknownChunkReport where
  id : String
  start_offset : Int
  end_offset : Int
  size : Int
  entropy : Option EntropyReport

/-- Embedding of MultiFileReport (report.py lines 239-246). -/
structure MultiFileReport where
  id : String
  handler_name : String
  name : String
  paths : List String
  extraction_reports : List AttrVal

/-- Embedding of ExtractionProblem (report.py lines 249-266). -/
structure ExtractionProblem where
  problem : String
  resolution : String
  path : Option String := none
  deriving DecidableEq, Repr

/-- Modelled from the spec: ChunkOutcome assembly (§3) — the code that
creates ChunkReports is outside src/; an outcome is assembled from a chunk
whose end_offset is at least its start_offset, with size computed as their
difference. -/
def mkChunkOutcome (i handler_name : String) (start_offset end_offset : Int)
    (is_encrypted : Bool) (extraction_reports : List AttrVal) : ChunkReport :=
  { id := i, handler_name := handler_name, start_offset := start_offset,
    end_offset := end_offset, size := end_offset - start_offset,
    is_encrypted := is_encrypted, extraction_reports := extraction_reports }

/-!
Theorems. Helper lemmas come first, then, per claim, the claim's theorem
and (when it has hypotheses) its witness, or its counterexample and the
amended theorem.
-/

theorem strJoin_append (xs ys : List String) :
    strJoin (xs ++ ys) = strJoin xs ++ strJoin ys := by
  induction xs with
  | nil => simp [strJoin, String.empty_append]
  | cons x xs ih => simp [strJoin, ih, String.append_assoc]

theorem strJoin_singleton (s : String) : strJoin [s] = s := by
  simp [strJoin, String.append_empty]

/-- C1: the exception-capture conversion _convert_exception_to_str returns
every string unchanged; on every exception object it returns non-empty text
that contains the exception's type name; and on every input that is neither
a string nor an exception it fails with a ValueError. -/
theorem convert_exception_to_str_spec :
    (∀ s : String, _convert_exception_to_str (.str s) = .ok s) ∧
    (∀ e : Exc, ∃ t : String, _convert_exception_to_str (.exc e) = .ok t ∧
      t ≠ "" ∧ containsSubstring t e.typeName) ∧
    (∀ d : String, _convert_exception_to_str (.other d) =
      .error (.valueError "Invalid exception object")) := by
  refine ⟨fun s => rfl, fun e => ?_, fun d => rfl⟩
  have hdecomp : strJoin (format_exception e) =
      strJoin (if e.tbLines.isEmpty then [] else
        "Traceback (most recent call last):\n" :: e.tbLines) ++
      (e.typeName ++ (if e.message = "" then "\n" else ": " ++ e.message ++ "\n")) := by
    rw [format_exception, strJoin_append, strJoin_singleton]
    by_cases hm : e.message = "" <;> simp [hm, String.append_assoc]
  have htail : (if e.message = "" then "\n" else ": " ++ e.message ++ "\n").length ≠ 0 := by
    by_cases hm : e.message = ""
    · rw [if_pos hm]; decide
    · rw [if_neg hm, String.length_append, String.length_append]
      have h1 : ("\n" : String).length = 1 := rfl
      omega
  refine ⟨strJoin (format_exception e), rfl, ?_, ?_⟩
  · intro hc
    rw [hdecomp] at hc
    have h1 := congrArg String.length hc
    rw [String.length_append, String.length_append] at h1
    rw [show ("" : String).length = 0 from rfl] at h1
    omega
  · exact ⟨_, _, hdecomp⟩

/-- C6: every error variant constructed without an explicit severity
carries its declared default: WARNING for ExtractCommandFailedReport and
MaliciousSymlinkRemoved; ERROR for UnknownError, its two specializations,
ExtractDirectoryExistsReport, ExtractorDependencyNotFoundReport,
ExtractorTimedOut and MultiFileCollisionReport. In particular the spec's
scenario record (command "unpack foo.bin", exit code 2, empty stdout,
stderr b"bad header") has exactly those field values and severity
WARNING. -/
theorem error_variant_default_severities :
    (∀ c (o e : List UInt8) (n : Int),
      ({ command := c, stdout := o, stderr := e, exit_code := n } :
        ExtractCommandFailedReport).severity = Severity.WARNING) ∧
    (∀ l t : String,
      ({ link := l, target := t } : MaliciousSymlinkRemoved).severity =
        Severity.WARNING) ∧
    (∀ s : String, mkUnknownError (.str s) =
      .ok { severity := Severity.ERROR, exception := s }) ∧
    (∀ e : Exc, mkUnknownError (.exc e) =
      .ok { severity := Severity.ERROR,
            exception := strJoin (format_exception e) }) ∧
    (∀ s (off : Int) (hd : String), mkCalculateChunkExceptionReport (.str s) off hd =
      .ok { severity := Severity.ERROR, exception := s, start_offset := off,
            handler := hd }) ∧
    (∀ s (p hd : String), mkCalculateMultiFileExceptionReport (.str s) p hd =
      .ok { severity := Severity.ERROR, exception := s, path := p, handler := hd }) ∧
    (∀ p : String,
      ({ path := p } : ExtractDirectoryExistsReport).severity = Severity.ERROR) ∧
    (∀ deps : List String,
      ({ dependencies := deps } : ExtractorDependencyNotFoundReport).severity =
        Severity.ERROR) ∧
    (∀ (c : String) (t : Rat),
      ({ cmd := c, timeout := t } : ExtractorTimedOut).severity = Severity.ERROR) ∧
    (∀ (ps : List String) (hd : String),
      ({ paths := ps, handler := hd } : MultiFileCollisionReport).severity =
        Severity.ERROR) ∧
    ({ command := "unpack foo.bin", stdout := [], stderr := strBytes "bad header",
       exit_code := 2 } : ExtractCommandFailedReport) =
      { severity := Severity.WARNING, command := "unpack foo.bin", stdout := [],
        stderr := strBytes "bad header", exit_code := 2 } :=
  ⟨fun _ _ _ _ => rfl, fun _ _ => rfl, fun _ => rfl, fun _ => rfl,
   fun _ _ _ => rfl, fun _ _ _ => rfl, fun _ => rfl, fun _ => rfl,
   fun _ _ => rfl, fun _ _ => rfl, rfl⟩

/-- C7: every report class in report.py is declared frozen, so any attempt
to set a field of a constructed record raises FrozenInstanceError and no
operation mutates a field of an existing record. -/
theorem report_records_immutable :
    reportClassDecorators.all
      (fun p => attrsSetattr p.2 == SetattrOutcome.raisesFrozenInstanceError) = true := by
  decide

theorem masked_mode_exclusive (m a b : Nat) (hab : a ≠ b) :
    ¬((m &&& S_IFMT == a) = true ∧ (m &&& S_IFMT == b) = true) := by
  rintro ⟨h1, h2⟩
  rw [beq_iff_eq] at h1 h2
  exact hab (h1.symm.trans h2)

/-- C5: StatReport.from_path is total on the model of an existing path — it
returns a record for every lstat/readlink outcome, converting any readlink
OSError into an absent target instead of propagating it — and for a regular
file of size N (where POSIX readlink fails with OSError) it reports
is_file=true, is_dir=false, size=N and link_target=none. -/
theorem statReport_from_path_spec (p : String) (ps : PathState) :
    (∀ err : PyErr, ps.readlinkResult = .error err →
      (StatReport.from_path p ps).link_target = none) ∧
    (∀ t : String, ps.readlinkResult = .ok t →
      (StatReport.from_path p ps).link_target = some t) ∧
    (S_ISREG ps.lstat.st_mode = true →
      ∀ err : PyErr, ps.readlinkResult = .error err →
      StatReport.from_path p ps =
        { path := p, size := ps.lstat.st_size, is_dir := false, is_file := true,
          is_link := false, link_target := none }) := by
  refine ⟨?_, ?_, ?_⟩
  · intro err h
    simp [StatReport.from_path, h]
  · intro t h
    simp [StatReport.from_path, h]
  · intro hreg err h
    have hm : ps.lstat.st_mode &&& S_IFMT = S_IFREG := by
      simpa [S_ISREG] using hreg
    simp [StatReport.from_path, h, S_ISDIR, S_ISREG, S_ISLNK, hm, S_IFDIR, S_IFREG, S_IFLNK]

theorem statReport_from_path_spec_witness :
    StatReport.from_path "/tmp/data.bin" regFilePathState =
      { path := "/tmp/data.bin", size := 1234, is_dir := false, is_file := true,
        is_link := false, link_target := none } :=
  (statReport_from_path_spec "/tmp/data.bin" regFilePathState).2.2 (by decide)
    (.osError "EINVAL") rfl

/-- C10: the three type flags of a StatReport produced by from_path derive
from the mutually exclusive file-type bits of one lstat mode, so at most
one of is_dir, is_file, is_link is true; in particular a symlink is
reported with is_link=true and is_file=false even when its target is a
regular file. -/
theorem statReport_type_flags_exclusive (p : String) (ps : PathState) :
    (¬((StatReport.from_path p ps).is_dir = true ∧
       (StatReport.from_path p ps).is_file = true)) ∧
    (¬((StatReport.from_path p ps).is_dir = true ∧
       (StatReport.from_path p ps).is_link = true)) ∧
    (¬((StatReport.from_path p ps).is_file = true ∧
       (StatReport.from_path p ps).is_link = true)) ∧
    (S_ISLNK ps.lstat.st_mode = true →
      (StatReport.from_path p ps).is_link = true ∧
      (StatReport.from_path p ps).is_file = false) := by
  refine ⟨?_, ?_, ?_, ?_⟩
  · simpa [StatReport.from_path, S_ISDIR, S_ISREG] using
      masked_mode_exclusive ps.lstat.st_mode S_IFDIR S_IFREG (by decide)
  · simpa [StatReport.from_path, S_ISDIR, S_ISLNK] using
      masked_mode_exclusive ps.lstat.st_mode S_IFDIR S_IFLNK (by decide)
  · simpa [StatReport.from_path, S_ISREG, S_ISLNK] using
      masked_mode_exclusive ps.lstat.st_mode S_IFREG S_IFLNK (by decide)
  · intro hlnk
    have hm : ps.lstat.st_mode &&& S_IFMT = S_IFLNK := by
      simpa [S_ISLNK] using hlnk
    simp [StatReport.from_path, S_ISREG, S_ISLNK, hm, S_IFREG, S_IFLNK]

theorem statReport_type_flags_exclusive_witness :
    (StatReport.from_path "/tmp/link" symlinkPathState).is_link = true ∧
    (StatReport.from_path "/tmp/link" symlinkPathState).is_file = false :=
  (statReport_type_flags_exclusive "/tmp/link" symlinkPathState).2.2.2 (by decide)

theorem readChunks_flatten (chunk_size : Nat) (hcs : 0 < chunk_size)
    (content : List UInt8) :
    (readChunks chunk_size content).flatten = content := by
  have main : ∀ n (content : List UInt8), content.length = n →
      (readChunks chunk_size content).flatten = content := by
    intro n
    induction n using Nat.strong_induction_on with
    | _ n ih =>
      intro content hn
      rw [readChunks]
      split
      · rename_i h
        rw [List.take_eq_nil_iff] at h
        rcases h with h | h
        · omega
        · simp [h]
      · rename_i h
        rw [List.take_eq_nil_iff] at h
        push_neg at h
        have hlt : (content.drop chunk_size).length < n := by
          rw [List.length_drop]
          have : 0 < content.length := List.length_pos.mpr h.2
          omega
        rw [List.flatten_cons, ih _ hlt _ rfl]
        exact List.take_append_drop chunk_size content
  exact main content.length content rfl

theorem foldl_update_absorbed (chunks : List (List UInt8))
    (st : Hasher × Hasher × Hasher) :
    chunks.foldl
        (fun st chunk => (st.1.update chunk, st.2.1.update chunk, st.2.2.update chunk))
        st =
      (⟨st.1.absorbed ++ chunks.flatten⟩, ⟨st.2.1.absorbed ++ chunks.flatten⟩,
        ⟨st.2.2.absorbed ++ chunks.flatten⟩) := by
  induction chunks generalizing st with
  | nil => simp
  | cons c cs ih =>
    rw [List.foldl_cons, ih]
    simp [Hasher.update, List.append_assoc]

/-- C2: for every file content, HashReport.from_path returns exactly the
single-algorithm reference digests of the full byte content, and the result
is deterministic — any positive internal block size yields the same record
as the source's 64 KiB chunking. -/
theorem hashReport_from_path_correct (md5alg sha1alg sha256alg : List UInt8 → String)
    (content : List UInt8) (chunk_size : Nat) (hcs : 0 < chunk_size) :
    hashReport_from_path_blocks md5alg sha1alg sha256alg chunk_size content =
      { md5 := md5alg content, sha1 := sha1alg content, sha256 := sha256alg content } ∧
    HashReport.from_path md5alg sha1alg sha256alg content =
      { md5 := md5alg content, sha1 := sha1alg content, sha256 := sha256alg content } := by
  have key : ∀ cs : Nat, 0 < cs →
      hashReport_from_path_blocks md5alg sha1alg sha256alg cs content =
        { md5 := md5alg content, sha1 := sha1alg content, sha256 := sha256alg content } := by
    intro cs hpos
    simp only [hashReport_from_path_blocks]
    rw [foldl_update_absorbed, readChunks_flatten cs hpos content]
    rfl
  exact ⟨key chunk_size hcs, key (1024 * 64) (by norm_num)⟩

theorem hashReport_from_path_correct_witness :
    hashReport_from_path_blocks byteSumHex byteSumHex byteSumHex 3 [1, 2, 3, 4, 5] =
      { md5 := byteSumHex [1, 2, 3, 4, 5], sha1 := byteSumHex [1, 2, 3, 4, 5],
        sha256 := byteSumHex [1, 2, 3, 4, 5] } :=
  (hashReport_from_path_correct byteSumHex byteSumHex byteSumHex
    [1, 2, 3, 4, 5] 3 (by decide)).1

theorem foldl_max_spec (xs : List Rat) : ∀ x : Rat,
    xs.foldl max x ∈ x :: xs ∧ ∀ y ∈ x :: xs, y ≤ xs.foldl max x := by
  induction xs with
  | nil => intro x; simp
  | cons a as ih =>
    intro x
    obtain ⟨hmem, hle⟩ := ih (max x a)
    have hfold : (a :: as).foldl max x = as.foldl max (max x a) := rfl
    constructor
    · rw [hfold]
      rcases List.mem_cons.mp hmem with hmem | hmem
      · rcases max_choice x a with hc | hc <;> rw [hmem, hc]
        · exact List.mem_cons_self _ _
        · exact List.mem_cons_of_mem _ (List.mem_cons_self _ _)
      · exact List.mem_cons_of_mem _ (List.mem_cons_of_mem _ hmem)
    · intro y hy
      rw [hfold]
      have hmaxle : max x a ≤ as.foldl max (max x a) := hle _ (List.mem_cons_self _ _)
      rcases List.mem_cons.mp hy with rfl | hy
      · exact le_trans (le_max_left _ _) hmaxle
      · rcases List.mem_cons.mp hy with rfl | hy
        · exact le_trans (le_max_right _ _) hmaxle
        · exact hle _ (List.mem_cons_of_mem _ hy)

theorem foldl_min_spec (xs : List Rat) : ∀ x : Rat,
    xs.foldl min x ∈ x :: xs ∧ ∀ y ∈ x :: xs, xs.foldl min x ≤ y := by
  induction xs with
  | nil => intro x; simp
  | cons a as ih =>
    intro x
    obtain ⟨hmem, hge⟩ := ih (min x a)
    have hfold : (a :: as).foldl min x = as.foldl min (min x a) := rfl
    constructor
    · rw [hfold]
      rcases List.mem_cons.mp hmem with hmem | hmem
      · rcases min_choice x a with hc | hc <;> rw [hmem, hc]
        · exact List.mem_cons_self _ _
        · exact List.mem_cons_of_mem _ (List.mem_cons_self _ _)
      · exact List.mem_cons_of_mem _ (List.mem_cons_of_mem _ hmem)
    · intro y hy
      rw [hfold]
      have hminle : as.foldl min (min x a) ≤ min x a := hge _ (List.mem_cons_self _ _)
      rcases List.mem_cons.mp hy with rfl | hy
      · exact le_trans hminle (min_le_left _ _)
      · rcases List.mem_cons.mp hy with rfl | hy
        · exact le_trans hminle (min_le_right _ _)
        · exact hge _ (List.mem_cons_of_mem _ hy)

/-- C4: for every EntropyReport with non-empty percentages, highest is some
entry at least as large as every entry (the maximum of the sequence) and
lowest is some entry at most as large as every entry (the minimum). -/
theorem entropyReport_highest_lowest (x : Rat) (xs : List Rat) (bs : Int) (m : Rat) :
    ∃ hi lo : Rat,
      (EntropyReport.mk (x :: xs) bs m).highest = some hi ∧
      hi ∈ x :: xs ∧ (∀ y ∈ x :: xs, y ≤ hi) ∧
      (EntropyReport.mk (x :: xs) bs m).lowest = some lo ∧
      lo ∈ x :: xs ∧ (∀ y ∈ x :: xs, lo ≤ y) := by
  obtain ⟨hmem, hle⟩ := foldl_max_spec xs x
  obtain ⟨hmem2, hge⟩ := foldl_min_spec xs x
  exact ⟨_, _, rfl, hmem, hle, rfl, hmem2, hge⟩

theorem entropyReport_highest_lowest_witness :
    ∃ hi lo : Rat,
      (EntropyReport.mk [3, 1, 2] 4 2).highest = some hi ∧
      hi ∈ [(3 : Rat), 1, 2] ∧ (∀ y ∈ [(3 : Rat), 1, 2], y ≤ hi) ∧
      (EntropyReport.mk [3, 1, 2] 4 2).lowest = some lo ∧
      lo ∈ [(3 : Rat), 1, 2] ∧ (∀ y ∈ [(3 : Rat), 1, 2], lo ≤ y) :=
  entropyReport_highest_lowest 3 [1, 2] 4 2

/-- C3 counterexample: the EntropyReport record type does not enforce the
claimed invariant — the record with empty percentages and block_size 0 is
constructible, since attrs defines no validator on EntropyReport. -/
theorem entropyReport_invariant_not_enforced :
    ¬(∀ r : EntropyReport, r.percentages ≠ [] ∧ 0 < r.block_size ∧
      ∀ p ∈ r.percentages, 0 ≤ p ∧ p ≤ 100) := by
  intro hall
  exact (hall (EntropyReport.mk [] 0 0)).1 rfl

theorem readChunks_ne_nil (cs : Nat) (hcs : cs ≠ 0) (content : List UInt8)
    (hc : content ≠ []) : readChunks cs content ≠ [] := by
  rw [readChunks]
  have hne : content.take cs ≠ [] := by
    simp [List.take_eq_nil_iff, hcs, hc]
  rw [dif_neg hne]
  exact List.cons_ne_nil _ _

/-- C3 (amended): every EntropyReport produced by the entropy profiler —
run on a non-empty input, with a per-block measure staying on the 0-100
scale and a positive block size — satisfies the invariant: percentages
non-empty, block_size positive, and every entry in [0, 100]. -/
theorem entropyReport_invariant_of_profile (measure : List UInt8 → Rat)
    (hm : ∀ b, 0 ≤ measure b ∧ measure b ≤ 100)
    (block_size : Int) (hbs : 0 < block_size)
    (data : List UInt8) (hdata : data ≠ []) :
    ∃ r : EntropyReport, profile_entropy measure block_size data = .ok r ∧
      r.percentages ≠ [] ∧ 0 < r.block_size ∧
      ∀ p ∈ r.percentages, 0 ≤ p ∧ p ≤ 100 := by
  rw [profile_entropy, if_neg (not_le.mpr hbs)]
  refine ⟨_, rfl, ?_, hbs, ?_⟩
  · have h1 : block_size.toNat ≠ 0 := by omega
    have h2 := readChunks_ne_nil block_size.toNat h1 data hdata
    simpa using h2
  · intro p hp
    rw [List.mem_map] at hp
    obtain ⟨b, _, rfl⟩ := hp
    exact hm b

theorem entropyReport_invariant_of_profile_witness :
    ∃ r : EntropyReport, profile_entropy constMeasure 2 [10, 20, 30] = .ok r ∧
      r.percentages ≠ [] ∧ 0 < r.block_size ∧
      ∀ p ∈ r.percentages, 0 ≤ p ∧ p ≤ 100 :=
  entropyReport_invariant_of_profile constMeasure
    (fun b => by norm_num [constMeasure]) 2 (by norm_num) [10, 20, 30] (by decide)

mutual
theorem asdictVal_no_handle : (v : AttrVal) → containsReportVal (asdictVal v) = false
  | .vstr _ => rfl
  | .vint _ => rfl
  | .vrat _ => rfl
  | .vbool _ => rfl
  | .vbytes _ => rfl
  | .vnone => rfl
  | .vseverity _ => rfl
  | .vreport r => asdictReport_no_handle r
  | .vlist xs => asdictList_no_handle xs
  | .vset xs => asdictList_no_handle xs
  | .vdict es => asdictFields_no_handle es

theorem asdictReport_no_handle : (r : ReportVal) →
    containsReportFields (asdictReport r) = false
  | .mk fields => asdictFields_no_handle fields

theorem asdictList_no_handle : (xs : ValList) →
    containsReportList (asdictList xs) = false
  | .nil => rfl
  | .cons x xs => by
      have h1 := asdictVal_no_handle x
      have h2 := asdictList_no_handle xs
      simp [asdictList, containsReportList, h1, h2]

theorem asdictFields_no_handle : (es : FieldList) →
    containsReportFields (asdictFields es) = false
  | .nil => rfl
  | .cons k v tl => by
      have h1 := asdictVal_no_handle v
      have h2 := asdictFields_no_handle tl
      simp [asdictFields, containsReportFields, h1, h2]
end

/-- C8: Report.asdict is total and recursively expands every nested
report-typed field and every list, set or dict of them: for every report
value, including outcome aggregates with arbitrarily nested reports in
their extraction_reports, the resulting structure holds no report handle
anywhere. -/
theorem report_asdict_expands :
    ∀ r : ReportVal, containsReportVal (Report.asdict r) = false :=
  fun r => asdictReport_no_handle r

/-- C9 counterexample: the ChunkReport record type does not enforce the
claimed invariant — a record with end_offset below start_offset and an
unrelated size is constructible, since attrs defines no validator on
ChunkReport. -/
theorem chunkReport_invariant_not_enforced :
    ¬(∀ c : ChunkReport, c.start_offset ≤ c.end_offset ∧
      c.size = c.end_offset - c.start_offset) := by
  intro hall
  have h := (hall (ChunkReport.mk "0" "zip" 5 3 100 false [])).1
  have hiff : ¬((5 : Int) ≤ 3) := by norm_num
  exact hiff h

/-- C9 (amended): every ChunkReport assembled by the outcome constructor
from offsets with end_offset ≥ start_offset satisfies the invariant:
end_offset ≥ start_offset and size = end_offset − start_offset. -/
theorem chunkReport_invariant_of_assembly (i hn : String) (s e : Int)
    (hse : s ≤ e) (enc : Bool) (reports : List AttrVal) :
    (mkChunkOutcome i hn s e enc reports).start_offset ≤
      (mkChunkOutcome i hn s e enc reports).end_offset ∧
    (mkChunkOutcome i hn s e enc reports).size =
      (mkChunkOutcome i hn s e enc reports).end_offset -
      (mkChunkOutcome i hn s e enc reports).start_offset :=
  ⟨hse, rfl⟩

theorem chunkReport_invariant_of_assembly_witness :
    (mkChunkOutcome "1" "tar" 3 10 false []).start_offset ≤
      (mkChunkOutcome "1" "tar" 3 10 false []).end_offset ∧
    (mkChunkOutcome "1" "tar" 3 10 false []).size =
      (mkChunkOutcome "1" "tar" 3 10 false []).end_offset -
      (mkChunkOutcome "1" "tar" 3 10 false []).start_offset :=
  chunkReport_invariant_of_assembly "1" "tar" 3 10 (by norm_num) false []

end Unblob
